import Mathlib

/-!
# Verification of the cc-profile capture/correlation engine

Shallow embedding of the cc-profile repository (hook orchestrator, spawn/fetch
interceptor, tool-use correlator, OTLP writer, report materializer) together
with proofs settling the frozen specification claims.

JavaScript values that matter to the claims (JSON data, `null`/`undefined`
distinctions, truthiness, `??` and `||` operators, object spread) are modelled
explicitly so that each definition tracks its source function line by line.
-/

namespace CCProfile

/-- A JavaScript field value as seen by the interceptor: the field can be
absent (`undefined`), explicitly `null`, or an integer token count. -/
inductive JsVal where
  | undef : JsVal
  | null : JsVal
  | num : Int → JsVal
deriving DecidableEq, Repr

/-- JS `a ?? b`: `b` when `a` is `null` or `undefined`, otherwise `a`. -/
def jsCoalesce (a b : JsVal) : JsVal :=
  match a with
  | .undef => b
  | .null => b
  | .num n => .num n

/-- The field of `\x7b...cur, ...new\x7d`: the new object's value when the key is
present there (even `null`), otherwise the current one. -/
def jsSpreadPick (cur new : JsVal) : JsVal :=
  match new with
  | .undef => cur
  | v => v

/-- JS truthiness of a numeric field: `undefined`, `null` and `0` are falsy. -/
def jsTruthyNum : JsVal → Bool
  | .num n => n != 0
  | _ => false

/-- JS `a || b` where `a` is a numeric field and `b` an integer:
falsy `a` (absent, `null`, `0`) yields `b`. -/
def jsOrNum (a : JsVal) (b : Int) : Int :=
  match a with
  | .num n => if n = 0 then b else n
  | _ => b

/-- Numeric value of a field, `none` for absent or `null`. -/
def JsVal.toNum? : JsVal → Option Int
  | .num n => some n
  | _ => none

/-- JSON values (integer numbers suffice for all data handled by the claims;
object fields keep JS insertion order, which `JSON.parse`/`JSON.stringify`
preserve for the non-integer-like keys used throughout the repository). -/
inductive Json where
  | null : Json
  | bool : Bool → Json
  | num : Int → Json
  | str : String → Json
  | arr : List Json → Json
  | obj : List (String × Json) → Json
deriving Repr

namespace Json

/-- Escape one character the way `JSON.stringify` does for ASCII input. -/
def escapeChar (c : Char) : String :=
  if c = '"' then "\\\""
  else if c = '\\' then "\\\\"
  else if c = '\n' then "\\n"
  else if c = '\r' then "\\r"
  else if c = '\t' then "\\t"
  else if c = '\x08' then "\\b"
  else if c = '\x0c' then "\\f"
  else if c.toNat < 32 then
    "\\u00" ++ String.singleton (Nat.digitChar (c.toNat / 16))
      ++ String.singleton (Nat.digitChar (c.toNat % 16))
  else String.singleton c

/-- `JSON.stringify` of a string literal. -/
def quote (s : String) : String :=
  "\"" ++ String.join (s.toList.map escapeChar) ++ "\""

mutual

/-- `JSON.stringify` with no spacing, preserving object insertion order. -/
def stringify : Json → String
  | .null => "null"
  | .bool true => "true"
  | .bool false => "false"
  | .num n => toString n
  | .str s => quote s
  | .arr xs => "[" ++ stringifyList xs ++ "]"
  | .obj fs => "\x7b" ++ stringifyFields fs ++ "\x7d"

/-- Comma-separated serialization of array elements. -/
def stringifyList : List Json → String
  | [] => ""
  | [x] => stringify x
  | x :: xs => stringify x ++ "," ++ stringifyList xs

/-- Comma-separated serialization of object fields. -/
def stringifyFields : List (String × Json) → String
  | [] => ""
  | [(k, v)] => quote k ++ ":" ++ stringify v
  | (k, v) :: fs => quote k ++ ":" ++ stringify v ++ "," ++ stringifyFields fs

end

/-- Field lookup on a JSON object; `none` models JS `undefined` (the key is
absent or the value is not an object). -/
def getField : Json → String → Option Json
  | .obj fs, k => fs.lookup k
  | _, _ => none

/-- JS truthiness of a JSON value. -/
def truthy : Json → Bool
  | .null => false
  | .bool b => b
  | .num n => n != 0
  | .str s => s != ""
  | .arr _ => true
  | .obj _ => true

/-- Whether a value is an array. -/
def isArr : Json → Bool
  | .arr _ => true
  | _ => false

end Json

/-- JS `String.prototype.includes`. -/
def jsIncludes (s pat : String) : Bool :=
  s.toList.tails.any fun t => pat.toList.isPrefixOf t

/-- Split a character list at the first occurrence of `pat`, returning the
part before and the part after; `none` when `pat` does not occur. -/
def splitFirstAux (pat : List Char) : List Char → Option (List Char × List Char)
  | [] => if pat.isPrefixOf ([] : List Char) then some ([], []) else none
  | c :: cs =>
    if pat.isPrefixOf (c :: cs) then some ([], (c :: cs).drop pat.length)
    else (splitFirstAux pat cs).map fun p => (c :: p.1, p.2)

/-- JS `String.prototype.replace` with a plain-string pattern: replace the
first occurrence only. -/
def replaceFirst (s pat repl : String) : String :=
  match splitFirstAux pat.toList s.toList with
  | none => s
  | some (a, b) => ⟨a⟩ ++ repl ++ ⟨b⟩

/-- JS `String.prototype.split` on a plain-string separator (fuel-driven
recursion over the remaining characters; the fuel is always sufficient for
non-empty separators). -/
def splitOnListFuel (sep : List Char) : Nat → List Char → List (List Char)
  | 0, l => [l]
  | fuel + 1, l =>
    match splitFirstAux sep l with
    | none => [l]
    | some (a, b) => a :: splitOnListFuel sep fuel b

/-- JS `String.prototype.split` on a plain-string separator. -/
def jsSplit (s sep : String) : List String :=
  (splitOnListFuel sep.toList (s.toList.length + 1) s.toList).map
    fun l => ⟨l⟩

/-- JS `String.prototype.replace` with a `/g` regex over a literal pattern
(equivalently, `split` + `join`). -/
def jsReplaceAll (s pat repl : String) : String :=
  String.intercalate repl (jsSplit s pat)

/-- Split a character list on a separator character (`split("\n")`). -/
def splitOnCharAux (c : Char) : List Char → List (List Char)
  | [] => [[]]
  | x :: xs =>
    match splitOnCharAux c xs with
    | [] => [[x]]
    | h :: t => if x = c then [] :: h :: t else (x :: h) :: t

/-- JS `String.prototype.split("\n")`. -/
def jsSplitNewline (s : String) : List String :=
  (splitOnCharAux '\n' s.toList).map fun l => ⟨l⟩

/-- JS `String.prototype.trim`. -/
def jsTrim (s : String) : String :=
  ⟨((s.toList.dropWhile Char.isWhitespace).reverse.dropWhile
      Char.isWhitespace).reverse⟩

/-- JS `String.prototype.endsWith`. -/
def jsEndsWith (s pat : String) : Bool :=
  pat.toList.reverse.isPrefixOf s.toList.reverse

/-! ## C6 — API span status (`spawn-preload.cjs`, fetch interceptor) -/

/-- OTel span status codes as used by the interceptor (`0` unset, `1` OK,
`2` error). -/
inductive SpanStatus where
  | unset : SpanStatus
  | ok : SpanStatus
  | error : SpanStatus
deriving DecidableEq, Repr

/-- WHATWG `Response.ok`: the HTTP status is in the range 200 to 299
inclusive. -/
def responseOk (status : Nat) : Bool :=
  200 ≤ status && status ≤ 299

/-- `spawn-preload.cjs` fetch completion:
`span.setStatus(\x7bcode: response.ok ? 1 : 2\x7d)`. -/
def apiSpanStatus (status : Nat) : SpanStatus :=
  if responseOk status then .ok else .error

/-! ## C5 — cost computation (`spawn-preload.cjs`, `calculateModelCost` and
the `enhancedData` assembly) -/

/-- Per-million-token rates for one model. -/
structure ModelPricing where
  input : ℚ
  output : ℚ
  cacheRead : ℚ
  cacheWrite : ℚ
deriving DecidableEq, Repr

/-- The static `modelPricing` table of `spawn-preload.cjs`. -/
def modelPricingTable : List (String × ModelPricing) :=
  [("claude-3-5-sonnet-20241022", ⟨3, 15, 3/10, 15/4⟩),
   ("claude-sonnet-4-20250514", ⟨3, 15, 3/10, 15/4⟩),
   ("claude-3-5-haiku-20241022", ⟨1, 5, 1/10, 5/4⟩),
   ("claude-3-opus-20240229", ⟨15, 75, 3/2, 75/4⟩)]

/-- `modelPricing[model] || modelPricing["claude-3-5-sonnet-20241022"]`:
lookup with the default model's rates as fallback. -/
def pricingFor (model : String) : ModelPricing :=
  (modelPricingTable.lookup model).getD ⟨3, 15, 3/10, 15/4⟩

/-- The merged `usage` object of an API response, each token field possibly
absent, `null`, or a count. -/
structure Usage where
  input_tokens : JsVal
  output_tokens : JsVal
  cache_creation_input_tokens : JsVal
  cache_read_input_tokens : JsVal
deriving DecidableEq, Repr

/-- `calculateModelCost(model, usage, estimatedInputTokens)` from
`spawn-preload.cjs` (rational arithmetic stands in for JS doubles). -/
def calculateModelCost (model : String) (usage : Usage)
    (estimatedInputTokens : Int) : ℚ :=
  let pricing := pricingFor model
  let inputTokens := jsOrNum usage.input_tokens estimatedInputTokens
  let outputTokens := jsOrNum usage.output_tokens 0
  let cacheReadTokens := jsOrNum usage.cache_read_input_tokens 0
  let cacheCreationTokens := jsOrNum usage.cache_creation_input_tokens 0
  (inputTokens * pricing.input) / 1000000 + (outputTokens * pricing.output) / 1000000
    + (cacheReadTokens * pricing.cacheRead) / 1000000
    + (cacheCreationTokens * pricing.cacheWrite) / 1000000

/-- `parseFloat(cost.toFixed(6))`: round to six decimal places
(ties away from zero for the nonnegative costs that occur). -/
def round6 (q : ℚ) : ℚ :=
  (⌊q * 1000000 + 1/2⌋ : ℚ) / 1000000

/-- The `enhancedData` input-token computation: `usage.input_tokens`,
replaced by the request-based estimate when falsy and a request body was
parsed (`estimate`), then `|| 0`.  This is both the `ai.tokens.input`
attribute and the estimate handed to `calculateModelCost`. -/
def enhancedFinalInputTokens (usage : Usage) (estimate : Option Int) : Int :=
  let inputTokens : JsVal :=
    if !jsTruthyNum usage.input_tokens then
      match estimate with
      | some e => .num e
      | none => usage.input_tokens
    else usage.input_tokens
  jsOrNum inputTokens 0

/-- `ai.tokens.output` attribute (`usage.output_tokens || 0`). -/
def aiTokensOutput (usage : Usage) : Int :=
  jsOrNum usage.output_tokens 0

/-- `ai.cache.read` attribute (`usage.cache_read_input_tokens || 0`). -/
def aiCacheRead (usage : Usage) : Int :=
  jsOrNum usage.cache_read_input_tokens 0

/-- `ai.cache.write` attribute (`usage.cache_creation_input_tokens || 0`). -/
def aiCacheWrite (usage : Usage) : Int :=
  jsOrNum usage.cache_creation_input_tokens 0

/-- The `ai.cost.usd` span attribute:
`costUsd = parseFloat(calculateModelCost(model, usage, finalInputTokens).toFixed(6))`. -/
def aiCostUsd (model : String) (usage : Usage) (estimate : Option Int) : ℚ :=
  round6 (calculateModelCost model usage (enhancedFinalInputTokens usage estimate))

/-- The cost formula in the words of the specification: the sum over the four
token kinds of `token_count × rate ÷ 10^6` with the attribute token counts. -/
def costSumSpec (model : String) (usage : Usage) (estimate : Option Int) : ℚ :=
  let p := pricingFor model
  (enhancedFinalInputTokens usage estimate * p.input) / 1000000
    + (aiTokensOutput usage * p.output) / 1000000
    + (aiCacheRead usage * p.cacheRead) / 1000000
    + (aiCacheWrite usage * p.cacheWrite) / 1000000

/-! ## C3 — SSE usage merge (`spawn-preload.cjs`, `global.fetch`, the
`data.usage` accumulation over `data:` lines) -/

/-- The merge of two usage objects
(`\x7b...currentUsage, ...newUsage, input_tokens: newUsage.input_tokens ??
currentUsage.input_tokens, ...\x7d`): the three explicitly-listed token fields
use `??`, `output_tokens` comes from the object spread. -/
def mergeUsage (currentUsage newUsage : Usage) : Usage :=
  { input_tokens := jsCoalesce newUsage.input_tokens currentUsage.input_tokens
    output_tokens := jsSpreadPick currentUsage.output_tokens newUsage.output_tokens
    cache_creation_input_tokens :=
      jsCoalesce newUsage.cache_creation_input_tokens
        currentUsage.cache_creation_input_tokens
    cache_read_input_tokens :=
      jsCoalesce newUsage.cache_read_input_tokens
        currentUsage.cache_read_input_tokens }

/-- One SSE `data:` event's effect on the accumulated usage (`if (data.usage)
\x7b if (!responseData || !responseData.usage) responseData = data; else merge
\x7d`); an event is represented by its `usage` field, `none` when absent. -/
def sseUsageStep (responseUsage eventUsage : Option Usage) : Option Usage :=
  match eventUsage with
  | none => responseUsage
  | some newUsage =>
    match responseUsage with
    | none => some newUsage
    | some currentUsage => some (mergeUsage currentUsage newUsage)

/-- The usage accumulated over all parsed SSE `data:` events of a streaming
response. -/
def sseMergedUsage (events : List (Option Usage)) : Option Usage :=
  events.foldl sseUsageStep none

/-- The final `input_tokens` count extracted from a streaming response (the
value behind `ai.tokens.input` when present and non-null). -/
def sseFinalInputTokens (events : List (Option Usage)) : Option Int :=
  (sseMergedUsage events).bind fun u => u.input_tokens.toNum?

/-- All non-null `input_tokens` values provided by the stream's events, in
order. -/
def providedInputTokens (events : List (Option Usage)) : List Int :=
  events.filterMap fun e => e.bind fun u => u.input_tokens.toNum?

/-! ## C2 — tool-use correlation (`spawn-preload.cjs`,
`findRecentToolUseId` and `createToolExecutionSpan`) -/

/-- One line of `events.jsonl` as `findRecentToolUseId` sees it: a recorded
`tool_use_request` intention, any other parsed event (`preload_startup`,
`api`, `hook`, `tool_execution_complete`, ...), or a line whose `JSON.parse`
throws (skipped by the `catch`). -/
inductive LogEntry where
  | toolUseRequest (toolUseId : String) (toolName : String) (toolInput : Json)
  | otherEvent
  | malformed
deriving Repr

/-- The per-line test of the search loop: a `tool_use_request` event with
`event.toolName === toolName &&
JSON.stringify(event.toolInput) === JSON.stringify(toolInput)` yields its
`toolUseId`. -/
def intentionMatchResult (toolName : String) (toolInput : Json) :
    LogEntry → Option String
  | .toolUseRequest id n i =>
    if n == toolName && Json.stringify i == Json.stringify toolInput then
      some id
    else none
  | _ => none

/-- `findRecentToolUseId(toolName, toolInput, logFile)`: look at the last 50
lines of the event log (`lines.slice(-50)`) and search backwards (most recent
first) for a matching recorded intention. -/
def findRecentToolUseId (toolName : String) (toolInput : Json)
    (lines : List LogEntry) : Option String :=
  ((lines.drop (lines.length - 50)).reverse).findSome?
    (intentionMatchResult toolName toolInput)

/-- Boolean form of the match test (used to state the search as a first-match
property). -/
def matchesIntention (toolName : String) (toolInput : Json) : LogEntry → Bool
  | .toolUseRequest _ n i =>
    n == toolName && Json.stringify i == Json.stringify toolInput
  | _ => false

/-- The `toolUseId` carried by a log entry, when it is an intention. -/
def intentionId : LogEntry → Option String
  | .toolUseRequest id _ _ => some id
  | _ => none

/-- The `tool_execution_complete` record built from a PostToolUse hook event
(its `toolUseId` is the result of `findRecentToolUseId`). -/
structure ToolExecutionEvent where
  toolUseId : Option String
  toolName : String
  toolInput : Json
  toolResponse : Json
  sessionId : String
  duration : Int

/-- `typeof x === "string" ? x : JSON.stringify(x)`. -/
def jsonAttrString : Json → String
  | .str s => s
  | j => Json.stringify j

/-- The attributes `createToolExecutionSpan` sets on the emitted tool
execution span; `tool.use_id` is added exactly when the correlation found an
id. -/
def toolExecutionSpanAttrs (ev : ToolExecutionEvent) : List (String × Json) :=
  [("tool.name", .str ev.toolName),
   ("tool.input", .str (jsonAttrString ev.toolInput)),
   ("tool.output", .str (jsonAttrString ev.toolResponse)),
   ("tool.duration.ms", .num ev.duration),
   ("session.id", .str ev.sessionId)]
    ++ (match ev.toolUseId with
        | some id => [("tool.use_id", .str id)]
        | none => [])

/-- Lexicographic key order used by the canonical (sorted-keys) form. -/
def charListLe : List Char → List Char → Bool
  | [], _ => true
  | _ :: _, [] => false
  | a :: as, b :: bs =>
    if a < b then true else if b < a then false else charListLe as bs

/-- Insert one field into a key-sorted field list. -/
def insertField (p : String × Json) : List (String × Json) → List (String × Json)
  | [] => [p]
  | q :: qs =>
    if charListLe p.1.toList q.1.toList then p :: q :: qs
    else q :: insertField p qs

/-- Key-sort an object's field list (insertion sort). -/
def sortFields : List (String × Json) → List (String × Json)
  | [] => []
  | p :: ps => insertField p (sortFields ps)

mutual

/-- The canonical JSON representation in the words of the specification:
object keys sorted recursively (the code does NOT use this; it is stated here
to compare against `JSON.stringify` equality). -/
def canonicalize : Json → Json
  | .null => .null
  | .bool b => .bool b
  | .num n => .num n
  | .str s => .str s
  | .arr xs => .arr (canonicalizeList xs)
  | .obj fs => .obj (sortFields (canonicalizeFields fs))

/-- `canonicalize` mapped over array elements. -/
def canonicalizeList : List Json → List Json
  | [] => []
  | x :: xs => canonicalize x :: canonicalizeList xs

/-- `canonicalize` mapped over object field values. -/
def canonicalizeFields : List (String × Json) → List (String × Json)
  | [] => []
  | (k, v) :: fs => (k, canonicalize v) :: canonicalizeFields fs

end

/-! ## C1 — hook orchestrator (`hooks/orchestrator.cjs`, stdin `end`
handler: hook discovery, execution loop, first-wins merge) -/

/-- JS object field assignment `obj[k] = v`: update in place when the key
exists, otherwise append (preserving JS insertion order for
`JSON.stringify`). -/
def jsSetField (k : String) (v : Json) :
    List (String × Json) → List (String × Json)
  | [] => [(k, v)]
  | (k', v') :: rest =>
    if k' == k then (k', v) :: rest else (k', v') :: jsSetField k v rest

/-- Truthiness of `obj.k` for an object represented by its field list. -/
def fieldTruthy (fs : List (String × Json)) (k : String) : Bool :=
  match fs.lookup k with
  | some j => j.truthy
  | none => false

/-- `obj.k !== undefined`. -/
def hasField (fs : List (String × Json)) (k : String) : Bool :=
  (fs.lookup k).isSome

/-- The non-blocking branch of the merge loop: fold one parsed hook output
into `finalResponse` (first meaningful value wins for `stopReason`,
`decision`+`reason`, `suppressOutput`). -/
def mergeFields (finalResponse : List (String × Json)) (j : Json) :
    List (String × Json) :=
  let fr1 :=
    match j.getField "stopReason" with
    | some sr =>
      if sr.truthy && !fieldTruthy finalResponse "stopReason" then
        jsSetField "stopReason" sr finalResponse
      else finalResponse
    | none => finalResponse
  let fr2 :=
    match j.getField "decision" with
    | some d =>
      if d.truthy && !fieldTruthy fr1 "decision" then
        let t := jsSetField "decision" d fr1
        match j.getField "reason" with
        | some r => jsSetField "reason" r t
        | none => t
      else fr1
    | none => fr1
  match j.getField "suppressOutput" with
  | some so =>
    if !hasField fr2 "suppressOutput" then
      jsSetField "suppressOutput" so fr2
    else fr2
  | none => fr2

/-- `hookOutput.json.continue === false`. -/
def isBlocking (j : Json) : Bool :=
  match j.getField "continue" with
  | some (.bool false) => true
  | _ => false

/-- The merge loop over the parsed hook outputs (`none` stands for an output
`JSON.parse` rejected, kept as text and skipped): the first output whose JSON
is truthy and carries `continue: false` is printed verbatim
(`console.log(JSON.stringify(hookOutput.json)); return;`); otherwise the
composite `finalResponse` is printed. -/
def mergeLoop (finalResponse : List (String × Json)) :
    List (String × Option Json) → String
  | [] => Json.stringify (.obj finalResponse)
  | (_, j?) :: rest =>
    match j? with
    | some j =>
      if j.truthy then
        if isBlocking j then Json.stringify j
        else mergeLoop (mergeFields finalResponse j) rest
      else mergeLoop finalResponse rest
    | none => mergeLoop finalResponse rest

/-- The deduplicated command list actually iterated by the execution loop
(`[...new Set(hooks)]`, with the orchestrator cycle guard
`if (hookCmd.includes("orchestrator")) continue;`). -/
def discoveredToRun (hooks : List String) : List String :=
  hooks.eraseDups.filter fun c => !jsIncludes c "orchestrator"

/-- The execution loop: every command in the (deduplicated, cycle-guarded)
list is executed via `execSync`, in order; `exec c = some stdout` is a
zero-exit run whose trimmed output is pushed onto `hookOutputs`, `none` a
throwing run (error span only, no output pushed).  Returns the executed
commands and the collected `hookOutputs`. -/
def orchLoop (exec : String → Option String) :
    List String → List String × List (String × String)
  | [] => ([], [])
  | c :: cs =>
    let r := exec c
    let rest := orchLoop exec cs
    (c :: rest.1,
     match r with
     | some out => (c, jsTrim out) :: rest.2
     | none => rest.2)

/-- The parsed hook outputs
(`parsedOutputs = hookOutputs.map(... JSON.parse ...)`), with `parse`
standing for the runtime's `JSON.parse` (`none` = throws). -/
def orchestratorParsedOutputs (parse : String → Option Json)
    (exec : String → Option String) (hooks : List String) :
    List (String × Option Json) :=
  ((orchLoop exec (discoveredToRun hooks)).2).map fun p => (p.1, parse p.2)

/-- The whole stdin handler after span bookkeeping: returns the orchestrator's
stdout line and the list of executed user-hook commands. -/
def orchestratorRun (parse : String → Option Json)
    (exec : String → Option String) (hooks : List String) :
    String × List String :=
  (mergeLoop [("continue", .bool true)]
      (orchestratorParsedOutputs parse exec hooks),
   (orchLoop exec (discoveredToRun hooks)).1)

/-- The first parsed output that is truthy JSON with `continue === false`. -/
def firstBlockingOutput (parsed : List (String × Option Json)) : Option Json :=
  parsed.findSome? fun p =>
    match p.2 with
    | some j => if j.truthy && isBlocking j then some j else none
    | none => none

/-! ## C4 — tracer core (`otel-tracer.ts`: `initializeTracer`, `startSpan`) -/

/-- A span as relevant to trace identity: ids and the optional parent link. -/
structure Span where
  traceId : Nat
  spanId : Nat
  parentSpanId : Option Nat
  name : String
deriving DecidableEq, Repr

/-- The id draws of one process's tracer initialization: each
`initializeTracer` call builds its own `BasicTracerProvider`, whose SDK id
generator hands the root span a freshly generated traceId and spanId (there
is no cross-process id propagation in the code). -/
structure TracerInit where
  traceId : Nat
  rootSpanId : Nat
deriving DecidableEq, Repr

/-- `rootSpan = tracerInstance.startSpan("Claude Code Session", ...)`:
a span started with no parent context gets the fresh ids. -/
def rootSpanOf (init : TracerInit) : Span :=
  { traceId := init.traceId, spanId := init.rootSpanId,
    parentSpanId := none, name := "Claude Code Session" }

/-- `startSpan(name, options)`: the context is
`trace.setSpan(context.active(), getRootSpan())`, so per the OTel SDK the new
span inherits the root's traceId and is parented to the root. -/
def startSpan (init : TracerInit) (name : String) (newSpanId : Nat) : Span :=
  { traceId := (rootSpanOf init).traceId, spanId := newSpanId,
    parentSpanId := some (rootSpanOf init).spanId, name := name }

/-- `startEnhancedToolSpan(toolName, input?, mcpServer?, parentSpan?)`: the
context is `parentSpan ? trace.setSpan(context.active(), parentSpan) :
undefined`.  With a parent the new span inherits its traceId; with
`parentSpan = null` — how `createToolExecutionSpan` always calls it —
`tracer.startSpan` falls back to `context.active()`, and since the tracer
never registers a context manager (`initializeTracer` only calls
`trace.setGlobalTracerProvider`) the active context is empty: the SDK makes a
fresh parentless span with a freshly generated `freshTraceId`. -/
def startEnhancedToolSpan (toolName : String) (parentSpan : Option Span)
    (freshTraceId newSpanId : Nat) : Span :=
  match parentSpan with
  | some p =>
    { traceId := p.traceId, spanId := newSpanId,
      parentSpanId := some p.spanId, name := "Tool: " ++ toolName }
  | none =>
    { traceId := freshTraceId, spanId := newSpanId,
      parentSpanId := none, name := "Tool: " ++ toolName }

/-- `startHookExecutionSpan(command, parentSpan, isExclusive)`: the context
carries the explicit parent span, so the new span inherits the parent's
traceId. -/
def startHookExecutionSpan (command : String) (parentSpan : Span)
    (newSpanId : Nat) : Span :=
  { traceId := parentSpan.traceId, spanId := newSpanId,
    parentSpanId := some parentSpan.spanId,
    name := "Hook Execution: " ++ command }

/-- Every span one process contributes to the run's JSONL:
the API / hook-event spans it starts through `startSpan` (name, span id),
the tool-execution spans `createToolExecutionSpan` starts through
`startEnhancedToolSpan` with `parentSpan = null` (tool name, fresh traceId,
span id) — the host preload's third span source — the hook-execution spans
the orchestrator parents to its hook-event spans through
`startHookExecutionSpan` (command, parent's (name, span id), span id), and
the root span ended at shutdown. -/
def processSpans (init : TracerInit) (children : List (String × Nat))
    (toolSpans : List (String × Nat × Nat))
    (hookExecs : List (String × (String × Nat) × Nat)) : List Span :=
  (children.map fun c => startSpan init c.1 c.2)
    ++ (toolSpans.map fun t => startEnhancedToolSpan t.1 none t.2.1 t.2.2)
    ++ (hookExecs.map fun h =>
        startHookExecutionSpan h.1 (startSpan init h.2.1.1 h.2.1.2) h.2.2)
    ++ [rootSpanOf init]

/-- The run's JSONL spans when two processes write to it (the host preload
and one hook-orchestrator invocation), each with its own tracer and its own
span sources. -/
def runLogSpans (host orch : TracerInit)
    (hostChildren orchChildren : List (String × Nat))
    (hostToolSpans orchToolSpans : List (String × Nat × Nat))
    (hostHookExecs orchHookExecs : List (String × (String × Nat) × Nat)) :
    List Span :=
  processSpans host hostChildren hostToolSpans hostHookExecs
    ++ processSpans orch orchChildren orchToolSpans orchHookExecs

/-! ## C7 — OTLP writer (`otlp-json-exporter.ts`, `export`) -/

/-- A span as handed to the exporter: name and mutable attribute map. -/
structure ExpSpan where
  name : String
  attributes : List (String × Json)
deriving Repr

/-- `ExportResultCode` of `@opentelemetry/core`. -/
inductive ExportResultCode where
  | success : ExportResultCode
  | failed : ExportResultCode
deriving DecidableEq, Repr

/-- Everything observable about one `export` call: the result passed to
`resultCallback`, what got appended to `trace.otlp.jsonl` (if anything), and
the `console.error` lines. -/
structure ExportOutcome where
  result : ExportResultCode
  appended : Option String
  stderrLog : List String
deriving Repr

/-- `export` first stamps `session.id` (and `parent.session.id` when
configured) onto every span of the batch. -/
def stampSessionAttrs (sessionId : String) (parentSessionId : Option String)
    (spans : List ExpSpan) : List ExpSpan :=
  spans.map fun s =>
    { s with
      attributes :=
        let a := jsSetField "session.id" (.str sessionId) s.attributes
        match parentSessionId with
        | some p => jsSetField "parent.session.id" (.str p) a
        | none => a }

/-- `OTLPJsonFileExporter.export`: the whole body is wrapped in one
`try/catch` whose `catch` only logs; `resultCallback` always receives
`SUCCESS`.  `serialize` stands for
`JsonTraceSerializer.serializeRequest` + decode + `JSON.stringify` (an
`Except.error` is a serialization failure anywhere in the batch);
`dirWritable = false` makes the `fs.appendFileSync` throw. -/
def exporterExport (serialize : List ExpSpan → Except String String)
    (dirWritable : Bool) (sessionId : String)
    (parentSessionId : Option String) (spans : List ExpSpan) : ExportOutcome :=
  let stamped := stampSessionAttrs sessionId parentSessionId spans
  match serialize stamped with
  | .error e =>
    { result := .success, appended := none,
      stderrLog := ["OTLP Exporter: Error writing spans: " ++ e] }
  | .ok otlpJson =>
    if dirWritable then
      { result := .success, appended := some (otlpJson ++ "\n"),
        stderrLog := [] }
    else
      { result := .success, appended := none,
        stderrLog := ["OTLP Exporter: Error writing spans: EACCES"] }

/-! ## C10 — spawn interception (`spawn-preload.cjs`, `interceptedSpawn`) -/

/-- One call to `spawn`: command, argv, and the option/environment bits the
hook heuristic looks at (`options.shell`, the effective
`CLAUDE_PROJECT_DIR`). -/
structure SpawnRequest where
  command : String
  args : List String
  shell : Option Bool
  envClaudeProjectDir : Option String
deriving DecidableEq, Repr

/-- `isClaudeHook(command, args, options)`. -/
def isClaudeHook (r : SpawnRequest) : Bool :=
  let hasClaudeProjectDir :=
    match r.envClaudeProjectDir with
    | some s => s != ""
    | none => false
  let isShellMode := r.shell == some true
  let isOfficialHook := hasClaudeProjectDir && isShellMode
  let commandStr := String.intercalate " " (r.command :: r.args)
  let isOrchestratorHook :=
    jsIncludes commandStr "cc-profile" || jsIncludes commandStr "INTERCEPTOR TEST"
  isOfficialHook || isOrchestratorHook

/-- `args.some(arg => typeof arg === 'string' && arg.includes("INTERCEPTOR TEST"))`. -/
def hasEchoInArgs (r : SpawnRequest) : Bool :=
  r.args.any fun a => jsIncludes a "INTERCEPTOR TEST"

/-- `interceptedSpawn`: both branches call
`originalSpawn(command, args, options)` with the unmodified request and
return that very child; the Boolean records whether the observation wiring
(stdin/stdout/stderr tees, close/error handlers) was attached. -/
def interceptedSpawn {Child : Type} (originalSpawn : SpawnRequest → Child)
    (r : SpawnRequest) : Child × Bool :=
  if isClaudeHook r || hasEchoInArgs r then (originalSpawn r, true)
  else (originalSpawn r, false)

/-- The wrapped `child.stdin.write` of a matching spawn: append the chunk to
the captured `stdinData`, then forward the SAME chunk to the original
`write`.  State: (captured stdinData, chunks the underlying stream has
received). -/
def wrappedStdinWrite (st : String × List String) (chunk : String) :
    String × List String :=
  (st.1 ++ chunk, st.2 ++ [chunk])

/-- Stdin state after the host wrote a sequence of chunks through the
wrapper. -/
def stdinAfterWrites (chunks : List String) : String × List String :=
  chunks.foldl wrappedStdinWrite ("", [])

/-! ## C8/C9 — report materializer (`otlp-html-generator.ts`,
`generateHTML`) and the viewer's empty state
(`frontend/src/otlp-frontend-init.ts`) -/

/-- `new Date().toISOString().replace("T", " ").slice(0, -5)`: the
second-resolution generation timestamp embedded in the injected data. -/
def fmtTimestamp (nowIso : String) : String :=
  let r := replaceFirst nowIso "T" " "
  ⟨r.toList.take (r.toList.length - 5)⟩

/-- `escapeHtml` (five chained global replaces). -/
def escapeHtml (text : String) : String :=
  jsReplaceAll
    (jsReplaceAll
      (jsReplaceAll
        (jsReplaceAll
          (jsReplaceAll text "&" "&amp;")
          "<" "&lt;")
        ">" "&gt;")
      "\"" "&quot;")
    "\x27" "&#39;"

/-- `prepareDataForInjection`: `JSON.stringify(data, null, 0)` is escaped for
safe inlining inside a script tag. -/
def prepareDataForInjection (dataJson : String) : String :=
  jsReplaceAll
    (jsReplaceAll
      (jsReplaceAll
        (jsReplaceAll
          (jsReplaceAll dataJson "<" "\\u003c")
          ">" "\\u003e")
        "&" "\\u0026")
      "\u2028" "\\u2028")
    "\u2029" "\\u2029"

/-- The warning `console.warn` prints for a line whose `JSON.parse` (or
`resourceSpans` spread) throws. -/
def warnMsg : String := "Skipping invalid JSONL line:"

/-- One iteration of the JSONL loop: parse the line; on success push
`...lineData.resourceSpans` when that field is truthy (spreading a truthy
non-array throws inside the same `try`, hence a warning; string spread is not
modelled — no line produced by the writer carries a string there); on failure
warn.  State: collected resourceSpans and warnings so far. -/
def jsonlCollectStep (parseLine : String → Option Json)
    (acc : List Json × List String) (line : String) :
    List Json × List String :=
  match parseLine line with
  | none => (acc.1, acc.2 ++ [warnMsg])
  | some lineData =>
    match lineData.getField "resourceSpans" with
    | some (.arr rs) => (acc.1 ++ rs, acc.2)
    | some v => if v.truthy then (acc.1, acc.2 ++ [warnMsg]) else (acc.1, acc.2)
    | none => (acc.1, acc.2)

/-- `otlpContent.trim().split("\n").filter((line) => line.trim())`. -/
def jsonlLines (content : String) : List String :=
  (jsSplitNewline (jsTrim content)).filter fun l => jsTrim l != ""

/-- The merged `resourceSpans` and accumulated warnings of the JSONL branch. -/
def parseJsonl (parseLine : String → Option Json) (content : String) :
    List Json × List String :=
  (jsonlLines content).foldl (jsonlCollectStep parseLine) ([], [])

/-- `options.title || \x60Trace $\x7brunId\x7d\x60` (JS `||`: an empty title
string also falls back). -/
def jsOrStr (a : Option String) (b : String) : String :=
  match a with
  | some s => if s = "" then b else s
  | none => b

/-- `OTLPHTMLGenerator.generateHTML`, as a function of the effective template
and viewer bundle (read from disk by `loadTemplateFiles`), the OTLP file's
name and content (`none` = the file does not exist), the `options.title`, the
`runId` (`path.basename(path.dirname(otlpFile))`), and the current clock's
ISO string.  Returns the bytes written to `report.html` plus the warnings, or
the thrown error. -/
def generateHTML (parseLine : String → Option Json) (otlpFileName : String)
    (template bundle : String) (fileContent : Option String)
    (titleOpt : Option String) (runId nowIso : String) :
    Except String (String × List String) :=
  let traceDataE : Except String (Json × List String) :=
    match fileContent with
    | none => .ok (.obj [("resourceSpans", .arr [])], [])
    | some content =>
      if jsTrim content = "" then .ok (.obj [("resourceSpans", .arr [])], [])
      else if jsEndsWith otlpFileName ".jsonl" then
        let collected := parseJsonl parseLine content
        .ok (.obj [("resourceSpans", .arr collected.1)], collected.2)
      else
        match parseLine content with
        | some j => .ok (j, [])
        | none => .error "Unexpected token in JSON"
  match traceDataE with
  | .error e => .error e
  | .ok (traceData, warns) =>
    let htmlData : Json :=
      .obj [("traceData", traceData), ("parsedSpans", .null),
            ("timestamp", .str (fmtTimestamp nowIso)),
            ("runId", .str runId)]
    let dataJsonEscaped := prepareDataForInjection (Json.stringify htmlData)
    match jsSplit template "__OTLP_BUNDLE_REPLACEMENT__" with
    | [p0, p1] =>
      let htmlContent := p0 ++ bundle ++ p1
      let htmlContent :=
        replaceFirst htmlContent "__OTLP_DATA_REPLACEMENT__" dataJsonEscaped
      let htmlContent :=
        jsReplaceAll htmlContent "__OTLP_TITLE_REPLACEMENT__"
          (escapeHtml (jsOrStr titleOpt ("Trace " ++ runId)))
      .ok (htmlContent, warns)
    | _ =>
      .error "Template bundle replacement marker not found or found multiple times"

/-- Projection used to compare generated reports. -/
def okHtml (r : Except String (String × List String)) : String :=
  match r with
  | .ok p => p.1
  | .error e => e

/-- The spans of a well-formed line (`lineData.resourceSpans` when it is an
array, nothing otherwise). -/
def rsOf (j : Json) : List Json :=
  match j.getField "resourceSpans" with
  | some (.arr rs) => rs
  | _ => []

/-- A parsed line is well-shaped when its `resourceSpans` field is an array,
absent, or falsy (so the spread cannot throw). -/
def rsWellShaped (j : Json) : Bool :=
  match j.getField "resourceSpans" with
  | some (.arr _) => true
  | some v => !v.truthy
  | none => true

/-- A raw line is well-shaped when it is malformed (skipped anyway) or parses
to a well-shaped document. -/
def lineWellShaped (parseLine : String → Option Json) (l : String) : Bool :=
  match parseLine l with
  | some j => rsWellShaped j
  | none => true

/-- The resourceSpans contributed by the well-formed lines, in order. -/
def wellFormedLineSpans (parseLine : String → Option Json)
    (content : String) : List Json :=
  (((jsonlLines content).filterMap parseLine).map rsOf).flatten

/-- How many lines of the (trimmed, non-blank) JSONL input fail to parse. -/
def malformedLineCount (parseLine : String → Option Json)
    (content : String) : Nat :=
  ((jsonlLines content).filter fun l => (parseLine l).isNone).length

/-- A `D3Span` as far as tree identity goes: its id, display name, and
children (`otlp-parser.ts`). -/
inductive D3SpanTree where
  | mk (id : String) (name : String) (children : List D3SpanTree)
deriving Repr

/-- `OTLPParser.createEmptyRoot()`: the synthetic span returned when
`rootSpan` was never assigned. -/
def createEmptyRoot : D3SpanTree :=
  .mk "root" "Claude Code Session" []

mutual

/-- `OTLPParser.flattenSpans(root)`: depth-first traversal that pushes every
span, starting with the root itself — the result always contains the root. -/
def flattenSpans : D3SpanTree → List D3SpanTree
  | .mk i n cs => .mk i n cs :: flattenChildren cs

/-- `traverse` over a children list. -/
def flattenChildren : List D3SpanTree → List D3SpanTree
  | [] => []
  | c :: cs => flattenSpans c ++ flattenChildren cs

end

/-- The identity fields `convertSpan` gives a span
(`id: otlpSpan.spanId; parentId: otlpSpan.parentSpanId`). -/
structure D3SpanIds where
  id : String
  parentId : Option String
deriving DecidableEq, Repr

/-- `parse`'s extraction loop: all spans of all scopeSpans of all
resourceSpans of the injected trace data. -/
def allSpansOf (traceData : Json) : List Json :=
  match traceData.getField "resourceSpans" with
  | some (.arr rss) =>
    (rss.map fun rs =>
      match rs.getField "scopeSpans" with
      | some (.arr sss) =>
        (sss.map fun ss =>
          match ss.getField "spans" with
          | some (.arr sp) => sp
          | _ => []).flatten
      | _ => []).flatten
  | _ => []

/-- `convertSpan`, restricted to the identity fields. -/
def convertSpanIds (j : Json) : D3SpanIds :=
  { id :=
      match j.getField "spanId" with
      | some (.str s) => s
      | _ => ""
    parentId :=
      match j.getField "parentSpanId" with
      | some (.str s) => some s
      | _ => none }

/-- The extracted spans of the injected trace data, converted. -/
def extractedSpans (traceData : Json) : List D3SpanIds :=
  (allSpansOf traceData).map convertSpanIds

/-- `this.spans.set(d3Span.id, d3Span)`: a JS `Map` keeps insertion order and
overwrites an existing key in place. -/
def spanMapSet (m : List D3SpanIds) (s : D3SpanIds) : List D3SpanIds :=
  if m.any fun q => q.id == s.id then
    m.map fun q => if q.id == s.id then s else q
  else m ++ [s]

/-- The span map after inserting every converted span. -/
def buildSpanMap (allSpans : List D3SpanIds) : List D3SpanIds :=
  allSpans.foldl spanMapSet []

/-- `if (span.parentId && this.spans.has(span.parentId))` — the NEGATION of
the child condition: a span is orphaned when its `parentId` is falsy (absent
or the empty string) or names no span in the map. -/
def isOrphan (m : List D3SpanIds) (s : D3SpanIds) : Bool :=
  match s.parentId with
  | some p => p == "" || !(m.any fun q => q.id == p)
  | none => true

/-- The orphaned (root-level) spans of `parse`'s linking loop, in map
order. -/
def orphanedSpans (allSpans : List D3SpanIds) : List D3SpanIds :=
  (buildSpanMap allSpans).filter (isOrphan (buildSpanMap allSpans))

/-- The root `OTLPParser.parse` returns: when at least one orphaned span
exists, the synthetic session root (`createSessionRoot`, id `session-root`)
holding the orphans' subtrees (`link` abstracts the mutation-built
parent→children forest); when no span was orphaned — in particular for an
empty `resourceSpans` — `rootSpan` is never assigned and `createEmptyRoot()`
is returned. -/
def parseRoot (allSpans : List D3SpanIds)
    (link : List D3SpanIds → List D3SpanTree) : D3SpanTree :=
  match orphanedSpans allSpans with
  | [] => createEmptyRoot
  | orphans => .mk "session-root" "Claude Code Session" (link orphans)

/-- `frontend/src/otlp-frontend-init.ts` lines 118-122: after flattening the
parsed spans, `parsedSpans.length === 0` short-circuits into
`showError("No trace spans found - the trace data appears to be empty")`
instead of rendering. -/
def frontendEmptyStateShown (parsedSpans : List D3SpanTree) : Option String :=
  if parsedSpans.isEmpty then
    some "No trace spans found - the trace data appears to be empty"
  else none

end CCProfile

namespace CCProfile

/-- Inside `calculateModelCost`, `usage?.input_tokens || estimatedInputTokens`
reproduces the already-computed final input-token count. -/
theorem jsOrNum_enhancedFinalInputTokens (u : Usage) (est : Option Int) :
    jsOrNum u.input_tokens (enhancedFinalInputTokens u est)
      = enhancedFinalInputTokens u est := by
  cases h : u.input_tokens with
  | undef => simp [jsOrNum]
  | null => simp [jsOrNum]
  | num n =>
    by_cases hn : n = 0
    · simp [jsOrNum, hn]
    · simp [jsOrNum, hn, enhancedFinalInputTokens, jsTruthyNum, h]

theorem getLast?_cons_or {α : Type _} (v : α) (l : List α) :
    (v :: l).getLast? = l.getLast?.or (some v) := by
  rw [← List.head?_reverse, List.reverse_cons, List.head?_append,
    List.head?_reverse]
  rfl

/-- One merge step, projected to `input_tokens`: the event's non-null value
wins, otherwise the accumulator's survives. -/
theorem sseUsageStep_input (acc e : Option Usage) :
    ((sseUsageStep acc e).bind fun u => u.input_tokens.toNum?)
      = (e.bind fun u => u.input_tokens.toNum?).or
          (acc.bind fun u => u.input_tokens.toNum?) := by
  cases e with
  | none => simp [sseUsageStep]
  | some u =>
    cases acc with
    | none => cases h : u.input_tokens <;> simp [sseUsageStep, JsVal.toNum?, h]
    | some c =>
      cases h : u.input_tokens <;>
        simp [sseUsageStep, mergeUsage, jsCoalesce, JsVal.toNum?, h]

theorem sse_foldl_input (events : List (Option Usage)) :
    ∀ acc : Option Usage,
      ((events.foldl sseUsageStep acc).bind fun u => u.input_tokens.toNum?)
        = (providedInputTokens events).getLast?.or
            (acc.bind fun u => u.input_tokens.toNum?) := by
  induction events with
  | nil => intro acc; simp [providedInputTokens]
  | cons e es ih =>
    intro acc
    rw [List.foldl_cons, ih (sseUsageStep acc e), sseUsageStep_input]
    cases he : (e.bind fun u => u.input_tokens.toNum?) with
    | none => simp [providedInputTokens, List.filterMap_cons, he]
    | some v =>
      simp only [providedInputTokens, List.filterMap_cons, he,
        getLast?_cons_or, Option.or_assoc]

/-- C3 (amended): across the parsed SSE events of a streaming response, usage
fields merge with later non-null values overriding earlier ones — including
`input_tokens`, which is NOT sticky: the final `input_tokens` is the last
non-null value any event's usage supplied (`none` when never supplied). -/
theorem sse_final_input_tokens_is_last_provided (events : List (Option Usage)) :
    sseFinalInputTokens events = (providedInputTokens events).getLast? := by
  unfold sseFinalInputTokens sseMergedUsage
  rw [sse_foldl_input]
  simp

/-- C3 (counterexample): a stream whose `message_start` carries
`usage.input_tokens=200` followed by an event whose usage carries
`input_tokens=300` yields a final `input_tokens` of `300`, not the
claimed sticky `200`. -/
theorem sse_input_tokens_not_sticky :
    sseFinalInputTokens
        [some ⟨.num 200, .undef, .undef, .undef⟩,
         some ⟨.num 300, .num 3, .undef, .undef⟩] = some 300 ∧
      (300 : Int) ≠ 200 :=
  ⟨rfl, by decide⟩

theorem findSome?_intentionMatch (toolName : String) (toolInput : Json)
    (l : List LogEntry) :
    l.findSome? (intentionMatchResult toolName toolInput)
      = (l.find? (matchesIntention toolName toolInput)).bind intentionId := by
  induction l with
  | nil => rfl
  | cons e es ih =>
    cases e with
    | toolUseRequest id n i =>
      by_cases h : (n == toolName
          && Json.stringify i == Json.stringify toolInput) = true
      · simp [List.findSome?_cons, List.find?_cons, intentionMatchResult,
          matchesIntention, h, intentionId]
      · simp [List.findSome?_cons, List.find?_cons, intentionMatchResult,
          matchesIntention, h, ih]
    | otherEvent => simpa [List.findSome?_cons, List.find?_cons,
        intentionMatchResult, matchesIntention] using ih
    | malformed => simpa [List.findSome?_cons, List.find?_cons,
        intentionMatchResult, matchesIntention] using ih

/-- C2 (amended): the correlator searches the most recent 50 LINES of the
event log (not 50 intentions), most recent first; the first
`tool_use_request` whose `toolName` matches and whose `tool_input` has the
same `JSON.stringify` serialization (insertion-order-sensitive, not
canonical) wins and supplies `tool.use_id`; the execution span is emitted
either way, carrying `tool.use_id` exactly when a match was found. -/
theorem find_recent_tool_use_first_match (toolName : String) (toolInput : Json)
    (lines : List LogEntry) (ev : ToolExecutionEvent) :
    findRecentToolUseId toolName toolInput lines
      = (((lines.drop (lines.length - 50)).reverse).find?
            (matchesIntention toolName toolInput)).bind intentionId ∧
    ((toolExecutionSpanAttrs ev).lookup "tool.use_id").isSome
      = ev.toolUseId.isSome := by
  constructor
  · exact findSome?_intentionMatch toolName toolInput _
  · cases h : ev.toolUseId <;> simp [toolExecutionSpanAttrs, h, List.lookup]

/-- C2 (counterexample): two `tool_input` values that are structurally equal —
identical canonical (sorted-keys) JSON representation — but serialize their
keys in different orders do NOT match: the recorded intention
`\x7b"a":1,"b":2\x7d` is not found for the PostToolUse input
`\x7b"b":2,"a":1\x7d`, so the execution span is emitted without a
`tool.use_id` attribute, where the claim requires `tool.use_id = "tu_1"`. -/
theorem tool_use_match_is_order_sensitive :
    Json.stringify (canonicalize (.obj [("b", .num 2), ("a", .num 1)]))
        = Json.stringify (canonicalize (.obj [("a", .num 1), ("b", .num 2)])) ∧
    findRecentToolUseId "read_file" (.obj [("b", .num 2), ("a", .num 1)])
        [.toolUseRequest "tu_1" "read_file" (.obj [("a", .num 1), ("b", .num 2)])]
      = none ∧
    ((toolExecutionSpanAttrs
        ⟨findRecentToolUseId "read_file" (.obj [("b", .num 2), ("a", .num 1)])
            [.toolUseRequest "tu_1" "read_file"
              (.obj [("a", .num 1), ("b", .num 2)])],
         "read_file", .obj [("b", .num 2), ("a", .num 1)], .str "contents...",
         "s1", 5⟩).lookup "tool.use_id") = none := by
  exact ⟨rfl, rfl, rfl⟩

/-- C5 (amended): `ai.cost.usd` equals the sum over the four token kinds of
`token_count × rate ÷ 10^6` — with the rates from the static pricing table
(default model's rates as fallback) — rounded to six decimal places
(`toFixed(6)`); for the concrete case `input_tokens=100`, `output_tokens=50`
and zero cache tokens the attribute equals `100×rate_in/10^6 + 50×rate_out/10^6`
to within `10^-9`. -/
theorem ai_cost_usd_eq_rounded_token_sum :
    (∀ (model : String) (u : Usage) (est : Option Int),
      aiCostUsd model u est = round6 (costSumSpec model u est)) ∧
    |aiCostUsd "claude-3-5-sonnet-20241022" ⟨.num 100, .num 50, .num 0, .num 0⟩ none
        - ((100 * 3) / 1000000 + (50 * 15) / 1000000 : ℚ)| < 1/1000000000 := by
  constructor
  · intro model u est
    unfold aiCostUsd costSumSpec calculateModelCost
    rw [jsOrNum_enhancedFinalInputTokens]
    rfl
  · have hp : pricingFor "claude-3-5-sonnet-20241022"
        = (⟨3, 15, 3/10, 15/4⟩ : ModelPricing) := rfl
    norm_num [aiCostUsd, calculateModelCost, enhancedFinalInputTokens,
      hp, jsOrNum, jsTruthyNum, round6]

/-- C5 (counterexample): for model `claude-3-5-haiku-20241022` and a usage of
one cache-read token (all other counts zero), the emitted `ai.cost.usd` is `0`
while the claimed token sum is `1/10^7 = 0.0000001`; the rounding to six
decimals makes the two differ (by more than `10^-9`). -/
theorem ai_cost_usd_counterexample :
    aiCostUsd "claude-3-5-haiku-20241022" ⟨.num 0, .num 0, .num 0, .num 1⟩ none = 0 ∧
    costSumSpec "claude-3-5-haiku-20241022" ⟨.num 0, .num 0, .num 0, .num 1⟩ none
      = 1/10000000 ∧
    (0 : ℚ) ≠ 1/10000000 := by
  have hp : pricingFor "claude-3-5-haiku-20241022"
      = (⟨1, 5, 1/10, 5/4⟩ : ModelPricing) := rfl
  refine ⟨?_, ?_, by norm_num⟩
  · norm_num [aiCostUsd, calculateModelCost, enhancedFinalInputTokens,
      hp, jsOrNum, jsTruthyNum, round6]
  · norm_num [costSumSpec, enhancedFinalInputTokens, aiTokensOutput,
      aiCacheRead, aiCacheWrite, hp, jsOrNum, jsTruthyNum]

/-- The orchestrator's execution loop runs every command of the deduplicated,
cycle-guarded list, whatever the commands print or how they exit. -/
theorem orchLoop_executes_all (exec : String → Option String)
    (cmds : List String) : (orchLoop exec cmds).1 = cmds := by
  induction cmds with
  | nil => rfl
  | cons c cs ih => simp [orchLoop, ih]

/-- If some parsed output is truthy JSON with `continue === false`, the merge
loop prints the first such object (re-serialized), whatever the accumulated
`finalResponse` is. -/
theorem mergeLoop_first_blocking (parsed : List (String × Option Json)) :
    ∀ (fr : List (String × Json)) (j : Json),
      firstBlockingOutput parsed = some j →
      mergeLoop fr parsed = Json.stringify j := by
  induction parsed with
  | nil => intro fr j h; simp [firstBlockingOutput] at h
  | cons p rest ih =>
    intro fr j h
    match hp : p.2 with
    | none =>
      rw [show p = (p.1, p.2) from rfl, hp] at h ⊢
      simp only [firstBlockingOutput, List.findSome?_cons] at h
      exact ih fr j h
    | some jh =>
      rw [show p = (p.1, p.2) from rfl, hp] at h ⊢
      simp only [firstBlockingOutput, List.findSome?_cons] at h
      by_cases ht : (jh.truthy && isBlocking jh) = true
      · rw [if_pos ht] at h
        cases h
        simp only [Bool.and_eq_true] at ht
        simp [mergeLoop, ht.1, ht.2]
      · rw [if_neg ht] at h
        rcases Bool.and_eq_true jh.truthy (isBlocking jh) ▸ ht with _
        by_cases htr : jh.truthy = true
        · have hb : isBlocking jh = false := by
            cases hbb : isBlocking jh
            · rfl
            · exact absurd (by simp [htr, hbb]) ht
          simp [mergeLoop, htr, hb, ih _ j h]
        · simp [mergeLoop, Bool.of_not_eq_true htr, ih _ j h]

/-- C1 (amended): the orchestrator executes EVERY discovered (deduplicated,
non-orchestrator) user-hook command — a blocking output does not stop the
execution loop; first-wins applies only to output merging: the first truthy
parsed output with `continue: false` is emitted verbatim (re-serialized) as
the orchestrator's stdout and later outputs are ignored. -/
theorem orchestrator_blocking_semantics (parse : String → Option Json)
    (exec : String → Option String) (hooks : List String) :
    (orchestratorRun parse exec hooks).2 = discoveredToRun hooks ∧
    ∀ j : Json,
      firstBlockingOutput (orchestratorParsedOutputs parse exec hooks) = some j →
      (orchestratorRun parse exec hooks).1 = Json.stringify j := by
  refine ⟨orchLoop_executes_all exec _, fun j h => ?_⟩
  exact mergeLoop_first_blocking _ _ j h

/-- C1 (witness for the amended claim): with two discovered hooks where the
first prints `\x7b"continue":false,"stopReason":"policy"\x7d` and the second
prints `\x7b\x7d`, the orchestrator's stdout is exactly the blocking object
and the executed-command list is both hooks. -/
theorem orchestrator_blocking_semantics_witness :
    (orchestratorRun
        (fun s =>
          if s = "\x7b\"continue\":false,\"stopReason\":\"policy\"\x7d" then
            some (.obj [("continue", .bool false), ("stopReason", .str "policy")])
          else if s = "\x7b\x7d" then some (.obj []) else none)
        (fun c =>
          if c = "hook1" then
            some "\x7b\"continue\":false,\"stopReason\":\"policy\"\x7d"
          else if c = "hook2" then some "\x7b\x7d" else none)
        ["hook1", "hook2"]).1
      = "\x7b\"continue\":false,\"stopReason\":\"policy\"\x7d" ∧
    (orchestratorRun
        (fun s =>
          if s = "\x7b\"continue\":false,\"stopReason\":\"policy\"\x7d" then
            some (.obj [("continue", .bool false), ("stopReason", .str "policy")])
          else if s = "\x7b\x7d" then some (.obj []) else none)
        (fun c =>
          if c = "hook1" then
            some "\x7b\"continue\":false,\"stopReason\":\"policy\"\x7d"
          else if c = "hook2" then some "\x7b\x7d" else none)
        ["hook1", "hook2"]).2
      = ["hook1", "hook2"] := by
  constructor
  · exact (orchestrator_blocking_semantics _ _ _).2
      (.obj [("continue", .bool false), ("stopReason", .str "policy")]) rfl
  · exact (orchestrator_blocking_semantics _ _ _).1

/-- C1 (counterexample): in the very scenario of the claim — two discovered
hooks, the first returning `\x7b"continue":false,"stopReason":"policy"\x7d` —
the second hook IS executed (the execution loop finishes before the first-wins
merge starts), contradicting "no user-hook command discovered after the
blocking one is executed". -/
theorem orchestrator_blocking_still_executes_later_hooks :
    "hook2" ∈
      (orchestratorRun
        (fun s =>
          if s = "\x7b\"continue\":false,\"stopReason\":\"policy\"\x7d" then
            some (.obj [("continue", .bool false), ("stopReason", .str "policy")])
          else if s = "\x7b\x7d" then some (.obj []) else none)
        (fun c =>
          if c = "hook1" then
            some "\x7b\"continue\":false,\"stopReason\":\"policy\"\x7d"
          else if c = "hook2" then some "\x7b\x7d" else none)
        ["hook1", "hook2"]).2 := by
  have h : (orchestratorRun
      (fun s =>
        if s = "\x7b\"continue\":false,\"stopReason\":\"policy\"\x7d" then
          some (.obj [("continue", .bool false), ("stopReason", .str "policy")])
        else if s = "\x7b\x7d" then some (.obj []) else none)
      (fun c =>
        if c = "hook1" then
          some "\x7b\"continue\":false,\"stopReason\":\"policy\"\x7d"
        else if c = "hook2" then some "\x7b\x7d" else none)
      ["hook1", "hook2"]).2 = ["hook1", "hook2"] := rfl
  rw [h]
  simp

/-- C4 (amended): spans started through `startSpan` — API and hook-event
spans, explicitly parented to the process's root session span — carry that
root's traceId and become children of the root, and hook-execution spans
inherit their parent span's traceId; but tool-execution spans are started by
`createToolExecutionSpan` with `parentSpan = null` and no registered context
manager, so they are parentless spans with freshly generated traceIds even
within one process.  Every span a process emits carries either its root's
traceId or the fresh traceId of one of its parentless tool-execution spans —
so neither run-wide nor per-process traceId constancy holds. -/
theorem tracer_trace_id_semantics (init : TracerInit) (name : String)
    (sid ftid : Nat) (cmd : String) (p : Span)
    (children : List (String × Nat)) (toolSpans : List (String × Nat × Nat))
    (hookExecs : List (String × (String × Nat) × Nat)) :
    (startSpan init name sid).traceId = (rootSpanOf init).traceId ∧
    (startSpan init name sid).parentSpanId = some (rootSpanOf init).spanId ∧
    (startEnhancedToolSpan name none ftid sid).traceId = ftid ∧
    (startEnhancedToolSpan name none ftid sid).parentSpanId = none ∧
    (startHookExecutionSpan cmd p sid).traceId = p.traceId ∧
    ∀ s ∈ processSpans init children toolSpans hookExecs,
      s.traceId = (rootSpanOf init).traceId ∨
        ∃ t ∈ toolSpans, s.traceId = t.2.1 := by
  refine ⟨rfl, rfl, rfl, rfl, rfl, ?_⟩
  intro s hs
  rcases List.mem_append.mp hs with hs | hs
  · rcases List.mem_append.mp hs with hs | hs
    · rcases List.mem_append.mp hs with hs | hs
      · rcases List.mem_map.mp hs with ⟨c, _, rfl⟩
        exact Or.inl rfl
      · rcases List.mem_map.mp hs with ⟨t, ht, rfl⟩
        exact Or.inr ⟨t, ht, rfl⟩
    · rcases List.mem_map.mp hs with ⟨h, _, rfl⟩
      exact Or.inl rfl
  · rw [List.mem_singleton.mp hs]
    exact Or.inl rfl

/-- C4 (witness): in a concrete host process with traceId 1 and root span id
10, an API span started via `startSpan` carries traceId 1, while the
tool-execution span `startEnhancedToolSpan("read_file", ..., null)` with
fresh draw 3 is parentless and its traceId 3 is accounted for by the
tool-span disjunct of the characterization. -/
theorem tracer_trace_id_semantics_witness :
    (startSpan ⟨1, 10⟩ "API POST https://api.anthropic.com/v1/messages" 11).traceId
      = (rootSpanOf ⟨1, 10⟩).traceId ∧
    (startEnhancedToolSpan "read_file" none 3 12).parentSpanId = none ∧
    ((startEnhancedToolSpan "read_file" none 3 12).traceId
        = (rootSpanOf ⟨1, 10⟩).traceId ∨
      ∃ t ∈ [("read_file", 3, 12)],
        (startEnhancedToolSpan "read_file" none 3 12).traceId = t.2.1) := by
  refine ⟨(tracer_trace_id_semantics ⟨1, 10⟩
      "API POST https://api.anthropic.com/v1/messages" 11 3 "c"
      (rootSpanOf ⟨1, 10⟩) [] [] []).1,
    (tracer_trace_id_semantics ⟨1, 10⟩ "read_file" 12 3 "c"
      (rootSpanOf ⟨1, 10⟩) [] [] []).2.2.2.1, ?_⟩
  exact (tracer_trace_id_semantics ⟨1, 10⟩ "read_file" 12 3 "c"
      (rootSpanOf ⟨1, 10⟩)
      [("API POST https://api.anthropic.com/v1/messages", 11)]
      [("read_file", 3, 12)] []).2.2.2.2.2
    (startEnhancedToolSpan "read_file" none 3 12) (by decide)

/-- C4 (counterexample): the host process alone (ids 1/10) emits an API span
(traceId 1), a parentless tool-execution span with fresh traceId 3, and its
root (traceId 1) — already two distinct traceIds in one process; adding one
orchestrator invocation (ids 2/20) with a hook-event span, a hook-execution
span and its root makes the run's JSONL traceIds `[1, 3, 1, 2, 2, 2]`.  Not
every span carries the traceId of the host's root session span, and the
parentless tool span is no child of it either. -/
theorem run_log_has_distinct_trace_ids :
    (processSpans ⟨1, 10⟩
        [("API POST https://api.anthropic.com/v1/messages", 11)]
        [("read_file", 3, 12)] []).map Span.traceId = [1, 3, 1] ∧
    ¬ (∀ s ∈ processSpans ⟨1, 10⟩
        [("API POST https://api.anthropic.com/v1/messages", 11)]
        [("read_file", 3, 12)] [],
        s.traceId = (rootSpanOf ⟨1, 10⟩).traceId) ∧
    (runLogSpans ⟨1, 10⟩ ⟨2, 20⟩
        [("API POST https://api.anthropic.com/v1/messages", 11)]
        [("Hook: PostToolUse", 21)]
        [("read_file", 3, 12)] [] []
        [("npx eslint-check", ("Hook: PostToolUse", 21), 22)]).map Span.traceId
      = [1, 3, 1, 2, 2, 2] ∧
    ¬ (∀ s ∈ runLogSpans ⟨1, 10⟩ ⟨2, 20⟩
        [("API POST https://api.anthropic.com/v1/messages", 11)]
        [("Hook: PostToolUse", 21)]
        [("read_file", 3, 12)] [] []
        [("npx eslint-check", ("Hook: PostToolUse", 21), 22)],
        s.traceId = (rootSpanOf ⟨1, 10⟩).traceId) := by
  exact ⟨rfl, by decide, rfl, by decide⟩

/-- C7 (amended): `export` ALWAYS reports `SUCCESS` to its callback — also
when the run directory is unwritable; on any error (unwritable directory, or
a serialization failure anywhere in the batch) the ENTIRE batch is dropped
(nothing is appended, no degraded-marker emission) and a line is logged to
stderr; on the happy path the serialized batch plus newline is appended and
nothing is logged. -/
theorem exporter_export_semantics (serialize : List ExpSpan → Except String String)
    (dirWritable : Bool) (sid : String) (psid : Option String)
    (spans : List ExpSpan) :
    (exporterExport serialize dirWritable sid psid spans).result
      = ExportResultCode.success ∧
    (∀ e, serialize (stampSessionAttrs sid psid spans) = .error e →
      (exporterExport serialize dirWritable sid psid spans).appended = none ∧
      (exporterExport serialize dirWritable sid psid spans).stderrLog ≠ []) ∧
    (∀ line, serialize (stampSessionAttrs sid psid spans) = .ok line →
      (dirWritable = true →
        (exporterExport serialize dirWritable sid psid spans).appended
            = some (line ++ "\n") ∧
        (exporterExport serialize dirWritable sid psid spans).stderrLog = []) ∧
      (dirWritable = false →
        (exporterExport serialize dirWritable sid psid spans).appended = none ∧
        (exporterExport serialize dirWritable sid psid spans).stderrLog ≠ [])) := by
  cases hs : serialize (stampSessionAttrs sid psid spans) with
  | error e => simp [exporterExport, hs]
  | ok line => cases dirWritable <;> simp [exporterExport, hs]

/-- C7 (witness): concrete `export` calls — a writable directory appends the
serialized line; a serialization failure appends nothing and logs to
stderr. -/
theorem exporter_export_semantics_witness :
    (exporterExport (fun _ => .ok "x") true "s" none []).appended = some "x\n" ∧
    (exporterExport (fun _ => .error "bad") true "s" none []).appended = none ∧
    (exporterExport (fun _ => .error "bad") true "s" none []).stderrLog ≠ [] := by
  refine ⟨(((exporter_export_semantics (fun _ => .ok "x") true "s" none []).2.2
      "x" rfl).1 rfl).1, ?_, ?_⟩
  · exact ((exporter_export_semantics (fun _ => .error "bad") true "s" none []).2.1
      "bad" rfl).1
  · exact ((exporter_export_semantics (fun _ => .error "bad") true "s" none []).2.1
      "bad" rfl).2

/-- C7 (counterexample): with an unwritable run directory, `export` reports
`SUCCESS` — it does not fail with an IOError as claimed — and the batch is
silently dropped; likewise a serialization error drops the whole batch
instead of emitting the affected span with a degraded marker. -/
theorem exporter_never_fails_counterexample :
    (exporterExport (fun _ => .ok "x") false "s" none []).result
      = ExportResultCode.success ∧
    ExportResultCode.success ≠ ExportResultCode.failed ∧
    (exporterExport (fun _ => .ok "x") false "s" none []).appended = none ∧
    (exporterExport (fun _ => .error "span 3 unserializable") true "s" none
        []).appended = none := by
  exact ⟨rfl, by decide, rfl, rfl⟩

/-- The wrapped stdin `write` forwards chunks in order, appending to whatever
the underlying stream already received. -/
theorem stdin_foldl_forwards (chunks : List String) :
    ∀ acc : String × List String,
      (chunks.foldl wrappedStdinWrite acc).2 = acc.2 ++ chunks := by
  induction chunks with
  | nil => intro acc; simp
  | cons c cs ih =>
    intro acc
    rw [List.foldl_cons, ih]
    simp [wrappedStdinWrite]

/-- C10: the intercepted spawn returns the very child produced by the
original spawn primitive applied to the unmodified request (both for
matching and non-matching spawns), and the stdin wrapper of a matching spawn
forwards every written chunk unchanged and in order to the underlying
stream. -/
theorem intercepted_spawn_is_transparent {Child : Type}
    (originalSpawn : SpawnRequest → Child) (r : SpawnRequest)
    (chunks : List String) :
    (interceptedSpawn originalSpawn r).1 = originalSpawn r ∧
    (stdinAfterWrites chunks).2 = chunks := by
  constructor
  · unfold interceptedSpawn
    split <;> rfl
  · have h := stdin_foldl_forwards chunks ("", [])
    simpa [stdinAfterWrites] using h

/-- C8 (amended): the generated report is a deterministic function of the
JSONL content, template, bundle, title and run id — EXCEPT for the embedded
generation timestamp: two runs produce byte-identical HTML exactly when their
clock readings format to the same second-resolution timestamp string. -/
theorem report_deterministic_modulo_timestamp
    (parseLine : String → Option Json) (otlpFileName template bundle : String)
    (fileContent : Option String) (titleOpt : Option String)
    (runId t1 t2 : String) (h : fmtTimestamp t1 = fmtTimestamp t2) :
    generateHTML parseLine otlpFileName template bundle fileContent titleOpt
        runId t1
      = generateHTML parseLine otlpFileName template bundle fileContent
          titleOpt runId t2 := by
  unfold generateHTML
  rw [h]

set_option maxRecDepth 8000 in
/-- C8 (witness for the amended claim): two runs within the same wall-clock
second (different milliseconds) produce byte-identical output. -/
theorem report_deterministic_modulo_timestamp_witness :
    generateHTML (fun _ => none) "trace.otlp.jsonl"
        "A__OTLP_DATA_REPLACEMENT__C__OTLP_BUNDLE_REPLACEMENT__D__OTLP_TITLE_REPLACEMENT__E"
        "B" (some "") none "r" "2024-01-01T00:00:00.123Z"
      = generateHTML (fun _ => none) "trace.otlp.jsonl"
        "A__OTLP_DATA_REPLACEMENT__C__OTLP_BUNDLE_REPLACEMENT__D__OTLP_TITLE_REPLACEMENT__E"
        "B" (some "") none "r" "2024-01-01T00:00:00.456Z" := by
  apply report_deterministic_modulo_timestamp
  decide

set_option maxRecDepth 100000 in
/-- C8 (counterexample): running the materializer twice on the SAME empty
JSONL input one second apart yields different bytes — the injected data JSON
embeds the generation timestamp (`timestamp` field), so unchanged input does
not give byte-identical HTML. -/
theorem report_not_byte_identical_across_seconds :
    okHtml (generateHTML (fun _ => none) "trace.otlp.jsonl"
        "A__OTLP_DATA_REPLACEMENT__C__OTLP_BUNDLE_REPLACEMENT__D__OTLP_TITLE_REPLACEMENT__E"
        "B" (some "") none "r" "2024-01-01T00:00:00.000Z")
      ≠ okHtml (generateHTML (fun _ => none) "trace.otlp.jsonl"
        "A__OTLP_DATA_REPLACEMENT__C__OTLP_BUNDLE_REPLACEMENT__D__OTLP_TITLE_REPLACEMENT__E"
        "B" (some "") none "r" "2024-01-01T00:00:01.000Z") ∧
    (generateHTML (fun _ => none) "trace.otlp.jsonl"
        "A__OTLP_DATA_REPLACEMENT__C__OTLP_BUNDLE_REPLACEMENT__D__OTLP_TITLE_REPLACEMENT__E"
        "B" (some "") none "r" "2024-01-01T00:00:00.000Z").isOk = true ∧
    (generateHTML (fun _ => none) "trace.otlp.jsonl"
        "A__OTLP_DATA_REPLACEMENT__C__OTLP_BUNDLE_REPLACEMENT__D__OTLP_TITLE_REPLACEMENT__E"
        "B" (some "") none "r" "2024-01-01T00:00:01.000Z").isOk = true := by
  refine ⟨by decide, by decide, by decide⟩

/-- Folding the JSONL loop from any accumulator appends exactly the spans of
the well-formed (well-shaped) lines and one warning per malformed line. -/
theorem jsonlCollect_foldl_spec (parseLine : String → Option Json)
    (ls : List String)
    (hshape : ∀ l ∈ ls, lineWellShaped parseLine l = true) :
    ∀ acc : List Json × List String,
      ls.foldl (jsonlCollectStep parseLine) acc
        = (acc.1 ++ ((ls.filterMap parseLine).map rsOf).flatten,
           acc.2 ++ List.replicate
             ((ls.filter fun l => (parseLine l).isNone).length) warnMsg) := by
  induction ls with
  | nil => intro acc; simp
  | cons l ls ih =>
    intro acc
    have hl := hshape l (List.mem_cons_self l ls)
    have ihs : ∀ l' ∈ ls, lineWellShaped parseLine l' = true :=
      fun l' hl' => hshape l' (List.mem_cons_of_mem l hl')
    rw [List.foldl_cons, ih ihs]
    cases hp : parseLine l with
    | none =>
      simp [jsonlCollectStep, hp, List.filterMap_cons, List.filter_cons,
        List.replicate_succ]
    | some j =>
      have hj : rsWellShaped j = true := by
        unfold lineWellShaped at hl
        rw [hp] at hl
        exact hl
      cases hrs : j.getField "resourceSpans" with
      | none =>
        simp [jsonlCollectStep, hp, hrs, List.filterMap_cons,
          List.filter_cons, rsOf]
      | some v =>
        have hv : (!v.truthy || v.isArr) = true := by
          unfold rsWellShaped at hj
          rw [hrs] at hj
          cases v <;> simp_all [Json.isArr]
        cases v with
        | arr rs =>
          simp [jsonlCollectStep, hp, hrs, List.filterMap_cons,
            List.filter_cons, rsOf]
        | null =>
          simp [jsonlCollectStep, hp, hrs, List.filterMap_cons,
            List.filter_cons, rsOf, Json.truthy]
        | bool b =>
          simp only [Json.truthy, Json.isArr, Bool.or_false,
            Bool.not_eq_true'] at hv
          simp [jsonlCollectStep, hp, hrs, List.filterMap_cons,
            List.filter_cons, rsOf, Json.truthy, hv]
        | num n =>
          simp only [Json.truthy, Json.isArr, Bool.or_false,
            Bool.not_eq_true'] at hv
          simp [jsonlCollectStep, hp, hrs, List.filterMap_cons,
            List.filter_cons, rsOf, Json.truthy, hv]
        | str s =>
          simp only [Json.truthy, Json.isArr, Bool.or_false,
            Bool.not_eq_true'] at hv
          simp [jsonlCollectStep, hp, hrs, List.filterMap_cons,
            List.filter_cons, rsOf, Json.truthy, hv]
        | obj fs =>
          simp [Json.truthy, Json.isArr] at hv

/-- C9 (amended): (i) a missing OTLP file yields a successfully generated
report — no error — with no warnings; (ii) a whitespace-only file generates
the same report as a missing one; (iii) every malformed JSONL line is skipped
with one stderr warning while the resource spans of every well-formed line
are all collected, in order; (iv) the viewer NEVER shows the empty-state
message — `flattenSpans` always includes the root it is given, so
`parsedSpans.length === 0` is unreachable; (v) for the empty trace data a
missing/empty file injects, `parse` returns the synthetic `createEmptyRoot`
and the viewer renders exactly that one synthetic session span. -/
theorem report_failure_semantics (parseLine : String → Option Json)
    (template bundle p0 p1 : String) (titleOpt : Option String)
    (runId nowIso ws content : String)
    (hm : jsSplit template "__OTLP_BUNDLE_REPLACEMENT__" = [p0, p1])
    (hws : jsTrim ws = "")
    (hshape : ∀ l ∈ jsonlLines content, lineWellShaped parseLine l = true) :
    (generateHTML parseLine "trace.otlp.jsonl" template bundle none titleOpt
        runId nowIso).isOk = true ∧
    (∀ html warns,
      generateHTML parseLine "trace.otlp.jsonl" template bundle none titleOpt
          runId nowIso = .ok (html, warns) → warns = []) ∧
    generateHTML parseLine "trace.otlp.jsonl" template bundle (some ws)
        titleOpt runId nowIso
      = generateHTML parseLine "trace.otlp.jsonl" template bundle none
          titleOpt runId nowIso ∧
    parseJsonl parseLine content
      = (wellFormedLineSpans parseLine content,
         List.replicate (malformedLineCount parseLine content) warnMsg) ∧
    (∀ root : D3SpanTree, frontendEmptyStateShown (flattenSpans root) = none) ∧
    ∀ link : List D3SpanIds → List D3SpanTree,
      parseRoot (extractedSpans (.obj [("resourceSpans", .arr [])])) link
          = createEmptyRoot ∧
      flattenSpans (parseRoot
          (extractedSpans (.obj [("resourceSpans", .arr [])])) link)
        = [createEmptyRoot] := by
  refine ⟨?_, ?_, ?_, ?_, ?_, ?_⟩
  · simp only [generateHTML, hm]
    rfl
  · intro html warns hg
    simp [generateHTML, hm] at hg
    exact hg.2
  · simp [generateHTML, hws]
  · have := jsonlCollect_foldl_spec parseLine (jsonlLines content) hshape
      ([], [])
    simpa [parseJsonl, wellFormedLineSpans, malformedLineCount] using this
  · intro root
    cases root with
    | mk i n cs => simp [flattenSpans, frontendEmptyStateShown]
  · intro link
    exact ⟨rfl, rfl⟩

/-- C9 (counterexample): for the empty trace data that a missing or empty
OTLP file injects, `OTLPParser.parse` returns the synthetic
`createEmptyRoot` ("Claude Code Session") and `flattenSpans` yields that one
span, so `parsedSpans.length` is 1, the `parsedSpans.length === 0` branch of
the viewer never fires, and no "No trace spans found" empty-state message is
shown — the report displays a single synthetic session span instead,
contradicting the claim's "valid HTML report containing an empty-state
message". -/
theorem empty_trace_renders_synthetic_root :
    parseRoot (extractedSpans (.obj [("resourceSpans", .arr [])]))
        (fun _ => []) = createEmptyRoot ∧
    flattenSpans createEmptyRoot = [createEmptyRoot] ∧
    (flattenSpans createEmptyRoot).length = 1 ∧
    frontendEmptyStateShown (flattenSpans createEmptyRoot) = none :=
  ⟨rfl, rfl, rfl, rfl⟩

/-- C9 (witness): a concrete three-line JSONL input whose middle line is
malformed produces exactly the two well-formed lines' resource spans and one
warning, and a concrete missing-file invocation succeeds with no warnings. -/
theorem report_failure_semantics_witness :
    (generateHTML
        (fun l =>
          if l = "good" then some (.obj [("resourceSpans", .arr [.str "rs1"])])
          else if l = "good2" then
            some (.obj [("resourceSpans", .arr [.str "rs2"])])
          else none)
        "trace.otlp.jsonl"
        "A__OTLP_DATA_REPLACEMENT__C__OTLP_BUNDLE_REPLACEMENT__D__OTLP_TITLE_REPLACEMENT__E"
        "B" none none "r" "2024-01-01T00:00:00.000Z").isOk = true ∧
    parseJsonl
        (fun l =>
          if l = "good" then some (.obj [("resourceSpans", .arr [.str "rs1"])])
          else if l = "good2" then
            some (.obj [("resourceSpans", .arr [.str "rs2"])])
          else none)
        "good\nbad\ngood2"
      = ([.str "rs1", .str "rs2"], [warnMsg]) := by
  have h := report_failure_semantics
    (fun l =>
      if l = "good" then some (.obj [("resourceSpans", .arr [.str "rs1"])])
      else if l = "good2" then
        some (.obj [("resourceSpans", .arr [.str "rs2"])])
      else none)
    "A__OTLP_DATA_REPLACEMENT__C__OTLP_BUNDLE_REPLACEMENT__D__OTLP_TITLE_REPLACEMENT__E"
    "B" "A__OTLP_DATA_REPLACEMENT__C" "D__OTLP_TITLE_REPLACEMENT__E" none
    "r" "2024-01-01T00:00:00.000Z" "" "good\nbad\ngood2"
    (by decide) (by decide) (by decide)
  exact ⟨h.1, by rw [h.2.2.2.1]; rfl⟩

/-- C6: the intercepted API span's status is OK if and only if the HTTP
response status code lies in [200, 300); otherwise it is ERROR. -/
theorem api_span_status_ok_iff (status : Nat) :
    apiSpanStatus status = SpanStatus.ok ↔ 200 ≤ status ∧ status < 300 := by
  unfold apiSpanStatus responseOk
  split
  · rename_i h
    simp only [Bool.and_eq_true, decide_eq_true_eq] at h
    exact ⟨fun _ => ⟨h.1, by omega⟩, fun _ => rfl⟩
  · rename_i h
    simp only [Bool.and_eq_true, decide_eq_true_eq, not_and] at h
    constructor
    · intro hc
      exact absurd hc (by simp)
    · intro ⟨h1, h2⟩
      exact absurd (h h1) (by omega)

end CCProfile
